import Mathlib

/-!
Shallow embedding of the schema-driven transformation engine of the
`sobers-data` repository (`src/sobers_data/models.py`, with the format
dispatcher used by `src/sobers_data/csv_exporter.py`).

Python values are embedded as `PyVal`, Python `type` objects as `PyType`,
field objects as `FieldObj`, and fallible Python code as `Except Err`.
Mutable object identity (needed for the deep-copy claim) is embedded as a
store of field objects indexed by natural-number references.
-/

deriving instance DecidableEq for Except

namespace SobersData

/-- Embedding of the Python type objects that occur in the engine:
`str`, `int`, `float`, `type`, and `datetime.datetime`. -/
inductive PyType where
  | str
  | int
  | float
  | typeT
  | datetimeT
  deriving DecidableEq, Repr

/-- A calendar date as produced by `datetime.datetime.strptime` for the
date-only formats used by the engine (time components are always zero and
are omitted). -/
structure SDate where
  year : Nat
  month : Nat
  day : Nat
  deriving DecidableEq, Repr

/-- Embedding of the Python runtime values flowing through the engine:
strings, ints, floats (the engine only ever produces floats that are exact
decimals, so `Rat` is a faithful carrier), and `datetime` objects. -/
inductive PyVal where
  | str (s : String)
  | int (n : Int)
  | float (q : Rat)
  | datetimeV (d : SDate)
  deriving DecidableEq, Repr

/-- The runtime type of a value, as used by `isinstance(value, T)` checks. -/
def typeOfVal : PyVal → PyType
  | .str _ => .str
  | .int _ => .int
  | .float _ => .float
  | .datetimeV _ => .datetimeT

/-- `isinstance(v, T)` for a non-type value `v` embedded as `PyVal`. -/
def isinstanceVal (v : PyVal) (t : PyType) : Bool :=
  typeOfVal v == t

/-- `isinstance(T, U)` where the first argument is itself a type object.
A type object (`str`, `int`, `float`, `type`, `datetime.datetime`) is an
instance of `type` and of nothing else among the embedded types; in
particular `isinstance(T, T)` holds exactly when `T` is `type` itself.
This is the check `models.py:104` actually performs (it passes
`field_type` as both arguments). -/
def instanceCheckType (_T U : PyType) : Bool :=
  U == PyType.typeT

/-- The three `strptime`/`strftime` patterns declared by the `DateField`
instances in `models.py`: `"%b %d %Y"` (bank 1), `"%d-%m-%Y"`
(`COMMON_DATE_FORMAT`, bank 2), `"%d %b %Y"` (bank 3). -/
inductive Fmt where
  | bdy
  | dmy
  | dby
  deriving DecidableEq, Repr

/-- The distinct failure outcomes of the embedded code, one constructor per
raise site of `models.py` plus the error kinds named by the specification
(`MissingColumn`, `InvalidEnumValue`, `UnknownFormat`) that the engine is
specified to produce. `invalidRef` is a model artifact for dereferencing a
dangling store reference, which cannot happen in Python. -/
inductive Err where
  | fieldTypeInitError (ty : PyType)
  | typeMismatch (v : PyVal) (expected : PyType)
  | invalidDate (f : Fmt) (v : PyVal)
  | scopeItemError (v : PyVal)
  | fieldsNamesError
  | fieldsTypesError
  | unexpectedField (k : String)
  | unpackError (got : Nat)
  | keyError (k : String)
  | amountParseError (s : String)
  | invalidRef (r : Nat)
  | missingColumn (k : String)
  | unknownFormat
  | invalidEnumValue (v : PyVal)
  deriving DecidableEq, Repr

/- ### Date parsing and formatting (`datetime.datetime.strptime` / `strftime`)

Modelled from the regex CPython's pure-Python `_strptime` compiles for the
three formats above: whitespace in the format matches a run of one or more
whitespace characters (`\s+`); `%d` matches the alternation
`3[01]|[12]\d|0[1-9]|[1-9]| [1-9]` (one or two digits, or a space-padded
single nonzero digit); `%m` matches one or two digits; `%b` matches a
three-letter English month abbreviation case-insensitively; `%Y` matches
exactly four digits; other literal characters match themselves; trailing
unparsed input is an error; and an impossible calendar date (or a year
outside `datetime`'s 1..9999) raises `ValueError`. Digit directives are
modelled over the ASCII digits; CPython's `\d` additionally accepts
non-ASCII Unicode decimal digits, which the repository's CSV text inputs
do not contain. `strftime` renders `%d`/`%m` zero-padded to two digits and
`%Y` as the year in decimal with no zero padding (year 500 prints as
`500`), exact for the component bounds `strptime` guarantees (day ≤ 31,
month ≤ 12, year ≤ 9999). -/

/-- Numeric value of a decimal digit character. -/
def digitVal (c : Char) : Nat := c.toNat - 48

/-- Greedily read one or two leading decimal digits (the `%d`/`%m`
directives). -/
def takeDigits2 : List Char → Option (Nat × List Char)
  | [] => none
  | c1 :: rest =>
    if c1.isDigit then
      match rest with
      | c2 :: rest2 =>
        if c2.isDigit then some (10 * digitVal c1 + digitVal c2, rest2)
        else some (digitVal c1, rest)
      | [] => some (digitVal c1, [])
    else none

/-- Read exactly four decimal digits (the `%Y` directive). -/
def parse4Digits : List Char → Option (Nat × List Char)
  | c1 :: c2 :: c3 :: c4 :: rest =>
    if c1.isDigit && c2.isDigit && c3.isDigit && c4.isDigit then
      some (((digitVal c1 * 10 + digitVal c2) * 10 + digitVal c3) * 10 + digitVal c4, rest)
    else none
  | _ => none

/-- The English month abbreviations recognised by `%b`, lower-cased. -/
def monthAbbrevs : List String :=
  ["jan", "feb", "mar", "apr", "may", "jun", "jul", "aug", "sep", "oct", "nov", "dec"]

/-- Read a three-letter month abbreviation, case-insensitively (the `%b`
directive). -/
def parseMonthAbbrev : List Char → Option (Nat × List Char)
  | c1 :: c2 :: c3 :: rest =>
    match monthAbbrevs.findIdx? (· == String.mk [c1.toLower, c2.toLower, c3.toLower]) with
    | some i => some (i + 1, rest)
    | none => none
  | _ => none

/-- The `%d` directive (CPython pattern `3[01]|[12]\d|0[1-9]|[1-9]| [1-9]`):
one or two leading digits, or a space followed by a single nonzero
digit. -/
def parseDay : List Char → Option (Nat × List Char)
  | ' ' :: c :: rest =>
    if c.isDigit && c != '0' then some (digitVal c, rest) else none
  | l => takeDigits2 l

/-- Match one literal character of the format. -/
def expectChar (c : Char) : List Char → Option (List Char)
  | x :: rest => if x == c then some rest else none
  | [] => none

/-- Python's `\s` for text patterns: the Unicode whitespace table used by
`str.isspace` (ASCII whitespace, the information separators, NEL, NBSP and
the Unicode space characters). -/
def isPySpace (c : Char) : Bool :=
  decide (9 ≤ c.toNat) && decide (c.toNat ≤ 13) || c.toNat == 32 ||
  decide (28 ≤ c.toNat) && decide (c.toNat ≤ 31) || c.toNat == 133 ||
  c.toNat == 160 || c.toNat == 5760 ||
  decide (8192 ≤ c.toNat) && decide (c.toNat ≤ 8202) ||
  c.toNat == 8232 || c.toNat == 8233 || c.toNat == 8239 ||
  c.toNat == 8287 || c.toNat == 12288

/-- A whitespace run in the format (CPython compiles format whitespace to
the regex `\s+`): at least one whitespace character, consumed greedily —
exact here because every directive that follows a run begins with a
non-whitespace character. -/
def expectSpaces : List Char → Option (List Char)
  | c :: rest => if isPySpace c then some (rest.dropWhile isPySpace) else none
  | [] => none

/-- Gregorian leap-year rule, as implemented by `datetime`. -/
def isLeap (y : Nat) : Bool :=
  y % 4 == 0 && (y % 100 != 0 || y % 400 == 0)

/-- Days in a month, as enforced by `datetime.date`. -/
def daysInMonth (y m : Nat) : Nat :=
  if m = 2 then (if isLeap y then 29 else 28)
  else if m = 4 ∨ m = 6 ∨ m = 9 ∨ m = 11 then 30
  else 31

/-- The range check `datetime.date(year, month, day)` performs
(`MINYEAR = 1`, `MAXYEAR = 9999`). -/
def isValidDate (d : SDate) : Bool :=
  decide (1 ≤ d.year) && decide (d.year ≤ 9999) &&
  decide (1 ≤ d.month) && decide (d.month ≤ 12) &&
  decide (1 ≤ d.day) && decide (d.day ≤ daysInMonth d.year d.month)

/-- Structural parse of the input against one of the three declared
patterns, before the calendar-validity check. -/
def parseRaw : Fmt → List Char → Option SDate
  | .bdy, l => do
    let (m, l1) ← parseMonthAbbrev l
    let l2 ← expectSpaces l1
    let (d, l3) ← parseDay l2
    let l4 ← expectSpaces l3
    let (y, l5) ← parse4Digits l4
    if l5.isEmpty then pure ⟨y, m, d⟩ else none
  | .dmy, l => do
    let (d, l1) ← parseDay l
    let l2 ← expectChar '-' l1
    let (m, l3) ← takeDigits2 l2
    let l4 ← expectChar '-' l3
    let (y, l5) ← parse4Digits l4
    if l5.isEmpty then pure ⟨y, m, d⟩ else none
  | .dby, l => do
    let (d, l1) ← parseDay l
    let l2 ← expectSpaces l1
    let (m, l3) ← parseMonthAbbrev l2
    let l4 ← expectSpaces l3
    let (y, l5) ← parse4Digits l4
    if l5.isEmpty then pure ⟨y, m, d⟩ else none

/-- `datetime.datetime.strptime(s, fmt)` for the three declared formats:
`some` on success, `none` when Python would raise `ValueError`. -/
def strptime (f : Fmt) (s : String) : Option SDate :=
  match parseRaw f s.data with
  | some d => if isValidDate d then some d else none
  | none => none

/-- Zero-padded two-digit rendering (`%02d`); exact for inputs below 100,
which the validated day and month always are. -/
def pad2 (n : Nat) : List Char :=
  [Nat.digitChar (n / 10), Nat.digitChar (n % 10)]

/-- Four decimal digits; the rendering of years from 1000 to 9999. -/
def pad4 (n : Nat) : List Char :=
  [Nat.digitChar (n / 1000), Nat.digitChar (n / 100 % 10),
   Nat.digitChar (n / 10 % 10), Nat.digitChar (n % 10)]

/-- `%Y` as `strftime` renders it: the year in decimal with no zero
padding (year 500 prints as `500`, year 5 as `5`); four digits only from
1000 upward. Exact for years up to 9999, which the calendar check
guarantees for every date `strptime` returns. -/
def yearChars (y : Nat) : List Char :=
  if y < 10 then [Nat.digitChar y]
  else if y < 100 then [Nat.digitChar (y / 10), Nat.digitChar (y % 10)]
  else if y < 1000 then
    [Nat.digitChar (y / 100), Nat.digitChar (y / 10 % 10), Nat.digitChar (y % 10)]
  else pad4 y

/-- `d.strftime(COMMON_DATE_FORMAT)` with
`COMMON_DATE_FORMAT = "%d-%m-%Y"` (`models.py:9`). -/
def strftimeCanon (d : SDate) : String :=
  String.mk (pad2 d.day ++ '-' :: (pad2 d.month ++ '-' :: yearChars d.year))

/-- Whether a string has the canonical shape `DD-MM-YYYY`: two digits,
a dash, two digits, a dash, four digits. -/
def matchesDDMMYYYY (s : String) : Bool :=
  match s.data with
  | [a, b, c, d, e, f, g, h, i, j] =>
    a.isDigit && b.isDigit && c == '-' && d.isDigit && e.isDigit &&
      f == '-' && g.isDigit && h.isDigit && i.isDigit && j.isDigit
  | _ => false

/- ### Field objects (`models.py:89-149`) -/

/-- The state of a field object: `TypedField` (`name`, `_type`),
`DateField` (adds `_format`), `OneOfField` (adds `scope`). -/
inductive FieldObj where
  | typed (name : String) (ty : PyType)
  | date (name : String) (ty : PyType) (fmt : Fmt)
  | oneOf (name : String) (ty : PyType) (scope : List String)
  deriving DecidableEq, Repr

/-- `TypedField.__init__` (`models.py:103-107`). The guard at line 104 is
`isinstance(field_type, field_type)` — the type object tested against
itself — so construction fails unless the argument is `type` itself. -/
def typedFieldInit (name : String) (fieldType : PyType) : Except Err FieldObj :=
  if !(instanceCheckType fieldType fieldType) then
    .error (.fieldTypeInitError fieldType)
  else
    .ok (.typed name fieldType)

/-- `DateField.__init__` (`models.py:119-121`): runs the `TypedField`
initializer first, then stores the format. -/
def dateFieldInit (name : String) (fieldType : PyType) (fmt : Fmt) : Except Err FieldObj := do
  let _ ← typedFieldInit name fieldType
  .ok (.date name fieldType fmt)

/-- `OneOfField._validate_scope` (`models.py:140-144`): every scope item
must be a string; returns a copy of the scope. -/
def validateScope (scope : List PyVal) : Except Err (List String) :=
  scope.mapM fun v =>
    match v with
    | .str s => .ok s
    | other => .error (.scopeItemError other)

/-- `OneOfField.__init__` (`models.py:136-138`): `TypedField` initializer
first, then scope validation. -/
def oneOfFieldInit (name : String) (fieldType : PyType) (scope : List PyVal) :
    Except Err FieldObj := do
  let _ ← typedFieldInit name fieldType
  let s ← validateScope scope
  .ok (.oneOf name fieldType s)

/-- `validate` with Python dynamic dispatch on the field's class:
`TypedField.validate` (`models.py:109-112`) checks `isinstance` and passes
the value through; `DateField.validate` (`models.py:123-128`) parses with
the declared format (no type check — it overrides the base method) and
returns a `datetime`; `OneOfField.validate` (`models.py:146-149`) builds a
`ValueError` for an out-of-scope value but never raises it, so it returns
the value unconditionally. -/
def fieldValidate : FieldObj → PyVal → Except Err PyVal
  | .typed _ ty, v =>
    if isinstanceVal v ty then .ok v else .error (.typeMismatch v ty)
  | .date _ _ fmt, v =>
    match v with
    | .str s =>
      match strptime fmt s with
      | some d => .ok (.datetimeV d)
      | none => .error (.invalidDate fmt (.str s))
    | other => .error (.invalidDate fmt other)
  | .oneOf _ _ _scope, v => .ok v

/-- `transform` with dynamic dispatch: `TypedField.transform`
(`models.py:114-115`, inherited by `OneOfField`) returns the one-entry
dict `{name: validate(value)}`; `DateField.transform`
(`models.py:130-132`) re-serializes the validated date with
`COMMON_DATE_FORMAT`. -/
def fieldTransform : FieldObj → PyVal → Except Err (List (String × PyVal))
  | .typed n ty, v =>
    match fieldValidate (.typed n ty) v with
    | .ok w => .ok [(n, w)]
    | .error e => .error e
  | .oneOf n ty scope, v =>
    match fieldValidate (.oneOf n ty scope) v with
    | .ok w => .ok [(n, w)]
    | .error e => .error e
  | .date n ty fmt, v =>
    match fieldValidate (.date n ty fmt) v with
    | .ok (.datetimeV d) => .ok [(n, .str (strftimeCanon d))]
    | .ok w => .ok [(n, w)]
    | .error e => .error e

/- ### The transformer (`models.py:152-184`)

Field objects live in a store indexed by natural-number references, so
that deep-copying (`models.py:162`) and later mutation of the originals
can be expressed. A schema dict key is either a plain string (as in the
built-in schema literals) or a two-tuple of a string and a field
reference; those are the shapes relevant to the key-unpacking loop of
`_validate_schema` (`models.py:157`). -/

/-- A reference to a field object in the store. -/
abbrev FieldRef := Nat

/-- The store of allocated field objects; a reference indexes into it. -/
abbrev Store := List FieldObj

/-- A schema-dict key: a plain string, or a 2-tuple
`(string, field object)`. -/
inductive PyKey where
  | str (s : String)
  | pairSF (s : String) (r : FieldRef)
  deriving DecidableEq, Repr

/-- The state of a constructed `BankDataLineTransformer`: its private
`_schema` dict, as an ordered association list from key to field
reference. -/
structure TState where
  schema : List (PyKey × FieldRef)
  deriving DecidableEq, Repr

/-- Python `==` between a schema-dict key and the string looked up by
`self._schema[field]` (`models.py:168`): a tuple never equals a string. -/
def pkeyEqStr (k : PyKey) (s : String) : Bool :=
  match k with
  | .str t => t == s
  | .pairSF _ _ => false

/-- `self._schema[field]` (`models.py:168`): dict lookup by key equality,
first match in insertion order. -/
def schemaLookup (t : TState) (k : String) : Option FieldRef :=
  (t.schema.find? fun p => pkeyEqStr p.1 k).map (·.2)

/-- Python dict assignment `d[k] = v`: overwrite in place if the key is
present, else append. -/
def dictSet (d : List (String × PyVal)) (k : String) (v : PyVal) :
    List (String × PyVal) :=
  if d.any (·.1 == k) then d.map (fun p => if p.1 == k then (k, v) else p)
  else d ++ [(k, v)]

/-- Python dict lookup `d[k]` as an option. -/
def dictGet (d : List (String × PyVal)) (k : String) : Option PyVal :=
  (d.find? (·.1 == k)).map (·.2)

/-- `new_field, value = transformer.transform(value)` (`models.py:173`):
tuple-unpacking a dict iterates its keys, so a two-entry dict yields its
two keys and any other size raises `ValueError`. Every field's `transform`
returns a one-entry dict, so in the engine this always raises. -/
def unpack2 (d : List (String × PyVal)) : Except Err (String × PyVal) :=
  match d with
  | [(k1, _), (k2, _)] => .ok (k1, .str k2)
  | _ => .error (.unpackError d.length)

/-- `transformer = self._schema[field]` with its `KeyError` handler
(`models.py:167-172`): a key not in the schema dict raises the
unexpected-field `ValueError`. -/
def readField (store : Store) (t : TState) (k : String) : Except Err FieldObj :=
  match schemaLookup t k with
  | none => .error (.unexpectedField k)
  | some r =>
    match store.get? r with
    | none => .error (.invalidRef r)
    | some f => .ok f

/-- The statements run for one record item (`models.py:167-173`): look the
field up, run its `transform`, tuple-unpack the resulting dict. -/
def transformStep (store : Store) (t : TState) (k : String) (v : PyVal) :
    Except Err (String × PyVal) :=
  match readField store t k with
  | .error e => .error e
  | .ok f =>
    match fieldTransform f v with
    | .error e => .error e
    | .ok d => unpack2 d

/-- The loop of `BankDataLineTransformer.transform` (`models.py:164-175`):
iterate over the raw record's own items, run the per-item statements, and
store each produced pair (`models.py:174`). -/
def transformLoop (store : Store) (t : TState) :
    List (String × PyVal) → List (String × PyVal) → Except Err (List (String × PyVal))
  | acc, [] => .ok acc
  | acc, (k, v) :: rest =>
    match transformStep store t k v with
    | .error e => .error e
    | .ok (newField, value) => transformLoop store t (dictSet acc newField value) rest

/-- `BankDataLineTransformer.transform` (`models.py:164-175`). -/
def pyTransform (store : Store) (t : TState) (line : List (String × PyVal)) :
    Except Err (List (String × PyVal)) :=
  transformLoop store t [] line

/-- Best-effort decimal expansion of a rational, used only to embed
`f"{x}"` on a float; the engine never feeds a float whose value is not an
exact decimal into an f-string. -/
def fracDigitsAux : Nat → Rat → List Char
  | 0, _ => []
  | fuel + 1, q =>
    if q = 0 then []
    else
      let q10 := q * 10
      let d := q10.floor.toNat
      Nat.digitChar d :: fracDigitsAux fuel (q10 - (d : Rat))

/-- Rendering of an embedded value inside an f-string
(`f"{euro}.{cents}"`, `models.py:183`). -/
def fstr : PyVal → String
  | .str s => s
  | .int n => toString n
  | .float q =>
    (if q < 0 then "-" else "") ++ toString q.floor.natAbs ++
      (let ds := fracDigitsAux 30 (q - (q.floor : Rat))
       if ds.isEmpty then ".0" else String.mk ('.' :: ds))
  | .datetimeV d => strftimeCanon d

/-- Digits-to-number accumulation. -/
def natOfDigits (l : List Char) : Nat :=
  l.foldl (fun acc c => 10 * acc + digitVal c) 0

/-- Unsigned part of Python's `float(str)` for plain decimal literals
(digits, optional point, digits); exponents, infinities and surrounding
whitespace never occur in the engine's inputs and are not modelled. -/
def parseUnsignedFloat (l : List Char) : Option Rat :=
  let intDigits := l.takeWhile Char.isDigit
  let rest := l.dropWhile Char.isDigit
  match rest with
  | [] => if intDigits.isEmpty then none else some (natOfDigits intDigits)
  | '.' :: rest2 =>
    let fracDs := rest2.takeWhile Char.isDigit
    let rest3 := rest2.dropWhile Char.isDigit
    if rest3.isEmpty && !(intDigits.isEmpty && fracDs.isEmpty) then
      some ((natOfDigits intDigits : Rat) + (natOfDigits fracDs : Rat) / (10 ^ fracDs.length))
    else none
  | _ => none

/-- Python `float(s)` (`models.py:183`): `some` on success, `none` when
Python would raise `ValueError`. -/
def pyFloatParse (s : String) : Option Rat :=
  match s.data with
  | '-' :: r => (parseUnsignedFloat r).map Neg.neg
  | '+' :: r => parseUnsignedFloat r
  | l => parseUnsignedFloat l

/-- The post-processing statements of
`BankDataEuroCentsLineTransformer.transform` (`models.py:181-184`): read
back `euro` and `cents` (a `KeyError` if absent), merge them textually
with a decimal point, parse as a float, and assign the result to
`amount`. -/
def mergeAmount (transformed : List (String × PyVal)) :
    Except Err (List (String × PyVal)) :=
  match dictGet transformed "euro" with
  | none => .error (.keyError "euro")
  | some euro =>
    match dictGet transformed "cents" with
    | none => .error (.keyError "cents")
    | some cents =>
      match pyFloatParse (fstr euro ++ "." ++ fstr cents) with
      | none => .error (.amountParseError (fstr euro ++ "." ++ fstr cents))
      | some q => .ok (dictSet transformed "amount" (.float q))

/-- `BankDataEuroCentsLineTransformer.transform` (`models.py:178-184`):
run the base transform, then merge the monetary sub-columns. -/
def euroCentsTransform (store : Store) (t : TState) (line : List (String × PyVal)) :
    Except Err (List (String × PyVal)) :=
  match pyTransform store t line with
  | .error e => .error e
  | .ok transformed => mergeAmount transformed

/- ### Transformer construction (`models.py:152-162`) -/

/-- One step of the key-validation loop
`for field_name, field_type in schema.keys()` (`models.py:157-161`): each
KEY of the dict is tuple-unpacked into two variables. A string key of
length two unpacks into its two characters, and the second character (a
string) fails the `AbstractField` check; a string key of any other length
fails the unpacking itself; a `(string, field)` tuple key passes both
`isinstance` checks. -/
def validateKey (store : Store) (k : PyKey) : Except Err Unit :=
  match k with
  | .str s =>
    if s.length = 2 then .error .fieldsTypesError
    else .error (.unpackError s.length)
  | .pairSF _ r =>
    match store.get? r with
    | some _ => .ok ()
    | none => .error (.invalidRef r)

/-- The full key-validation loop of `_validate_schema`
(`models.py:157-161`). -/
def validateKeys (store : Store) : List (PyKey × FieldRef) → Except Err Unit
  | [] => .ok ()
  | (k, _) :: rest => do
    let _ ← validateKey store k
    validateKeys store rest

/-- Deep copy of one schema-dict key (`copy.deepcopy`, `models.py:162`):
strings are immutable and returned as-is; a tuple key containing a field
object gets a fresh copy of that field appended to the store. -/
def copyKey (store : Store) (k : PyKey) : Except Err (Store × PyKey) :=
  match k with
  | .str s => .ok (store, .str s)
  | .pairSF s r =>
    match store.get? r with
    | some f => .ok (store ++ [f], .pairSF s store.length)
    | none => .error (.invalidRef r)

/-- Deep copy of the schema dict (`copy.deepcopy(schema)`,
`models.py:162`): every key and every field value is copied into fresh
store cells. (Python's `deepcopy` additionally preserves aliasing between
copied entries via its memo dict; the schemas here reference each field
object once, so per-occurrence copying is equivalent.) -/
def copySchema (store : Store) : List (PyKey × FieldRef) →
    Except Err (Store × List (PyKey × FieldRef))
  | [] => .ok (store, [])
  | (k, r) :: rest =>
    match copyKey store k with
    | .error e => .error e
    | .ok (store1, k1) =>
      match store1.get? r with
      | none => .error (.invalidRef r)
      | some f =>
        match copySchema (store1 ++ [f]) rest with
        | .error e => .error e
        | .ok (store2, rest1) => .ok (store2, (k1, store1.length) :: rest1)

/-- `BankDataLineTransformer.__init__` (`models.py:152-162`): validate the
schema-dict keys, then deep-copy the dict into the transformer's own
`_schema`. Returns the grown store together with the transformer state. -/
def constructTransformer (store : Store) (schema : List (PyKey × FieldRef)) :
    Except Err (Store × TState) :=
  match validateKeys store schema with
  | .error e => .error e
  | .ok _ =>
    match copySchema store schema with
    | .error e => .error e
    | .ok (store1, schema1) => .ok (store1, ⟨schema1⟩)

/- ### The built-in schemas (`models.py:187-219`)

The schema dict literals name five (bank 1, bank 2) or six (bank 3)
fields. Evaluating the literals in Python runs the field constructors,
which is embedded separately below (`mkBank1SchemaDef` and friends); the
field objects the literals describe are also given directly as data, so
the behaviour of `transform` on the intended schemas can be stated. -/

/-- The field objects named by the `bank_1_schema` literal
(`models.py:187-193`), in insertion order. -/
def bank1Fields : List (String × FieldObj) :=
  [("timestamp", .date "date" .str .bdy),
   ("type", .oneOf "transaction" .str ["remove", "add"]),
   ("amount", .typed "amount" .float),
   ("from", .typed "from" .int),
   ("to", .typed "to" .int)]

/-- The field objects named by the `bank_2_schema` literal
(`models.py:196-202`). -/
def bank2Fields : List (String × FieldObj) :=
  [("date", .date "date" .str .dmy),
   ("transaction", .oneOf "transaction" .str ["remove", "add"]),
   ("amounts", .typed "amount" .float),
   ("from", .typed "from" .int),
   ("to", .typed "to" .int)]

/-- The field objects named by the `bank_3_schema` literal
(`models.py:205-212`). -/
def bank3Fields : List (String × FieldObj) :=
  [("date_readable", .date "date" .str .dby),
   ("type", .oneOf "transaction" .str ["remove", "add"]),
   ("from", .typed "from" .int),
   ("to", .typed "to" .int),
   ("euro", .typed "euro" .int),
   ("cents", .typed "cents" .int)]

/-- A store holding one schema's field objects at references `0, 1, …`. -/
def storeOf (fields : List (String × FieldObj)) : Store :=
  fields.map (·.2)

/-- The transformer state whose `_schema` maps each raw column name to the
corresponding field reference in `storeOf fields`. -/
def tstateOf (fields : List (String × FieldObj)) : TState :=
  ⟨fields.enum.map fun p => (PyKey.str p.2.1, p.1)⟩

def bank1Store : Store := storeOf bank1Fields
def bank1T : TState := tstateOf bank1Fields
def bank2Store : Store := storeOf bank2Fields
def bank2T : TState := tstateOf bank2Fields
def bank3Store : Store := storeOf bank3Fields
def bank3T : TState := tstateOf bank3Fields

/-- Evaluation of the `bank_1_schema` dict literal (`models.py:187-193`)
as Python performs it: each field constructor runs in turn, and the first
raised error aborts the whole literal. -/
def mkBank1SchemaDef : Except Err (List (String × FieldObj)) := do
  let f1 ← dateFieldInit "date" .str .bdy
  let f2 ← oneOfFieldInit "transaction" .str [.str "remove", .str "add"]
  let f3 ← typedFieldInit "amount" .float
  let f4 ← typedFieldInit "from" .int
  let f5 ← typedFieldInit "to" .int
  .ok [("timestamp", f1), ("type", f2), ("amount", f3), ("from", f4), ("to", f5)]

/-- Evaluation of the `bank_2_schema` dict literal (`models.py:196-202`). -/
def mkBank2SchemaDef : Except Err (List (String × FieldObj)) := do
  let f1 ← dateFieldInit "date" .str .dmy
  let f2 ← oneOfFieldInit "transaction" .str [.str "remove", .str "add"]
  let f3 ← typedFieldInit "amount" .float
  let f4 ← typedFieldInit "from" .int
  let f5 ← typedFieldInit "to" .int
  .ok [("date", f1), ("transaction", f2), ("amounts", f3), ("from", f4), ("to", f5)]

/-- Evaluation of the `bank_3_schema` dict literal (`models.py:205-212`). -/
def mkBank3SchemaDef : Except Err (List (String × FieldObj)) := do
  let f1 ← dateFieldInit "date" .str .dby
  let f2 ← oneOfFieldInit "transaction" .str [.str "remove", .str "add"]
  let f3 ← typedFieldInit "from" .int
  let f4 ← typedFieldInit "to" .int
  let f5 ← typedFieldInit "euro" .int
  let f6 ← typedFieldInit "cents" .int
  .ok [("date_readable", f1), ("type", f2), ("from", f3), ("to", f4),
       ("euro", f5), ("cents", f6)]

/- ### The format registry and dispatcher

`csv_exporter.py:4` imports `get_transformer` from `models`, and
`csv_exporter.py:25` calls it on a file's column names, but no definition
of `get_transformer` (nor of `expected_raw_keys`) exists anywhere under
the source tree; only `registered_models` (`models.py:215-219`) fixes the
registry contents and order. -/

/-- The identities of the three registered schemas, in the order of
`registered_models` (`models.py:215-219`). -/
inductive SchemaId where
  | bank1
  | bank2
  | bank3
  deriving DecidableEq, Repr

/-- Modelled from the spec: `expected_raw_keys()` — "the set of raw column
names required by all its Fields" (§4.2) — which the source does not
define; the key sets themselves are the keys of the source schema dict
literals (`models.py:187-212`). -/
def expectedRawKeys : SchemaId → List String
  | .bank1 => bank1Fields.map (·.1)
  | .bank2 => bank2Fields.map (·.1)
  | .bank3 => bank3Fields.map (·.1)

/-- Equality of two column-name collections as sets (order-independent,
duplicate-insensitive membership in both directions). -/
def setEqB (a b : List String) : Bool :=
  a.all (b.contains ·) && b.all (a.contains ·)

/-- Strict set inclusion of column-name collections. -/
def strictSubB (a b : List String) : Bool :=
  a.all (b.contains ·) && !(b.all (a.contains ·))

/-- Modelled from the spec: the dispatcher `resolve` / `get_transformer`
(§4.3) — "scans the Registry and returns the first Schema whose
`expected_raw_keys()` equals `raw_column_names` (set equality,
order-independent); fails with `UnknownFormat` if no Schema matches" —
which the source imports (`csv_exporter.py:4`) but never defines. The
scan order is that of `registered_models`. -/
def resolve (cols : List String) : Except Err SchemaId :=
  if setEqB cols (expectedRawKeys .bank1) then .ok .bank1
  else if setEqB cols (expectedRawKeys .bank2) then .ok .bank2
  else if setEqB cols (expectedRawKeys .bank3) then .ok .bank3
  else .error .unknownFormat

/-- Whether an error is the `MissingColumn` kind named by the spec. -/
def Err.isMissing : Err → Bool
  | .missingColumn _ => true
  | _ => false

/-- Whether a result is the `MissingColumn` failure named by the spec. -/
def isMissingColumnErr : Except Err (List (String × PyVal)) → Bool
  | .error e => e.isMissing
  | .ok _ => false

/-- `DateField.validate`'s parsing step as a function of the incoming
value: a non-string never parses (`strptime` raises `TypeError`), a string
parses exactly when `strptime` succeeds on it. -/
def dateParseOf (f : Fmt) (v : PyVal) : Option SDate :=
  match v with
  | .str s => strptime f s
  | _ => none

/-- The raw record of end-to-end scenario 2 (spec §8), in its written
column order. -/
def scenario2Record : List (String × PyVal) :=
  [("date_readable", .str "05 Jan 2020"), ("type", .str "remove"),
   ("euro", .str "12"), ("cents", .str "50"),
   ("from", .str "A"), ("to", .str "B")]

/- ### Helper lemmas -/

/-- Rendering a digit value below ten gives a decimal digit character. -/
lemma digitChar_isDigit {m : Nat} (h : m < 10) : (Nat.digitChar m).isDigit = true := by
  interval_cases m <;> decide

/-- No month has more than 31 days. -/
lemma daysInMonth_le_31 (y m : Nat) : daysInMonth y m ≤ 31 := by
  unfold daysInMonth
  split
  · split <;> decide
  · split <;> decide

/-- A date returned by `strptime` passed the calendar-validity check. -/
lemma strptime_isValid {f : Fmt} {s : String} {d : SDate}
    (h : strptime f s = some d) : isValidDate d = true := by
  unfold strptime at h
  split at h
  · split at h
    · injection h with h1; subst h1; assumption
    · cases h
  · cases h

/-- The component bounds guaranteed by calendar validity. -/
lemma validDate_bounds {d : SDate} (h : isValidDate d = true) :
    d.day < 100 ∧ d.month < 100 ∧ d.year < 10000 := by
  unfold isValidDate at h
  simp only [Bool.and_eq_true, decide_eq_true_eq] at h
  have hd := daysInMonth_le_31 d.year d.month
  omega

/-- From 1000 upward the unpadded year rendering is the four-digit one. -/
lemma yearChars_of_ge_1000 {y : Nat} (h : 1000 ≤ y) : yearChars y = pad4 y := by
  unfold yearChars
  rw [if_neg (by omega), if_neg (by omega), if_neg (by omega)]

/-- Within the bounds `strptime` guarantees, and for a year of at least
1000 (so that `%Y` prints four digits), the canonical re-serialization
matches the shape `DD-MM-YYYY`. -/
lemma matchesDDMMYYYY_strftimeCanon {d : SDate}
    (h1 : d.day < 100) (h2 : d.month < 100) (h3 : d.year < 10000)
    (h4 : 1000 ≤ d.year) :
    matchesDDMMYYYY (strftimeCanon d) = true := by
  have e : strftimeCanon d =
      ⟨[Nat.digitChar (d.day / 10), Nat.digitChar (d.day % 10), '-',
        Nat.digitChar (d.month / 10), Nat.digitChar (d.month % 10), '-',
        Nat.digitChar (d.year / 1000), Nat.digitChar (d.year / 100 % 10),
        Nat.digitChar (d.year / 10 % 10), Nat.digitChar (d.year % 10)]⟩ := by
    unfold strftimeCanon
    rw [yearChars_of_ge_1000 h4]
    rfl
  rw [e]
  simp only [matchesDDMMYYYY, Bool.and_eq_true, beq_self_eq_true, and_true, true_and,
    decide_eq_true_eq]
  and_intros <;> exact digitChar_isDigit (by omega)

/-- A successful field `transform` always returns a one-entry dict. -/
lemma fieldTransform_singleton {f : FieldObj} {v : PyVal} {d : List (String × PyVal)}
    (h : fieldTransform f v = .ok d) : ∃ k w, d = [(k, w)] := by
  cases f with
  | typed n ty =>
    simp only [fieldTransform] at h
    split at h
    · injection h with h1; exact ⟨_, _, h1.symm⟩
    · cases h
  | oneOf n ty scope =>
    simp only [fieldTransform] at h
    split at h
    · injection h with h1; exact ⟨_, _, h1.symm⟩
    · cases h
  | date n ty fmt =>
    simp only [fieldTransform] at h
    split at h <;> first
      | (injection h with h1; exact ⟨_, _, h1.symm⟩)
      | cases h

/-- `unpack2` can only fail with the unpacking error. -/
lemma unpack2_error_shape {d : List (String × PyVal)} {e : Err}
    (h : unpack2 d = .error e) : e = .unpackError d.length := by
  unfold unpack2 at h
  split at h
  · cases h
  · injection h with h1; exact h1.symm

/-- `validate` of any field never fails with `MissingColumn`. -/
lemma fieldValidate_error_not_missing {f : FieldObj} {v : PyVal} {e : Err}
    (h : fieldValidate f v = .error e) : e.isMissing = false := by
  cases f with
  | typed n ty =>
    simp only [fieldValidate] at h
    split at h
    · cases h
    · injection h with h1; subst h1; rfl
  | oneOf n ty scope => cases h
  | date n ty fmt =>
    simp only [fieldValidate] at h
    split at h
    · split at h
      · cases h
      · injection h with h1; subst h1; rfl
    · injection h with h1; subst h1; rfl

/-- `transform` of any field never fails with `MissingColumn`. -/
lemma fieldTransform_error_not_missing {f : FieldObj} {v : PyVal} {e : Err}
    (h : fieldTransform f v = .error e) : e.isMissing = false := by
  cases f with
  | typed n ty =>
    simp only [fieldTransform] at h
    split at h
    · cases h
    next e1 hv => injection h with h1; subst h1; exact fieldValidate_error_not_missing hv
  | oneOf n ty scope =>
    simp only [fieldTransform] at h
    split at h
    · cases h
    next e1 hv => injection h with h1; subst h1; exact fieldValidate_error_not_missing hv
  | date n ty fmt =>
    simp only [fieldTransform] at h
    split at h <;> first
      | exact Except.noConfusion h
      | (injection h with h1; subst h1
         exact fieldValidate_error_not_missing (by assumption))

/-- The unexpected-field and dangling-reference failures of the field
lookup are not `MissingColumn`. -/
lemma readField_error_not_missing {store : Store} {t : TState} {k : String} {e : Err}
    (h : readField store t k = .error e) : e.isMissing = false := by
  unfold readField at h
  split at h
  · injection h with h1; subst h1; rfl
  · split at h
    · injection h with h1; subst h1; rfl
    · cases h

/-- A failing record-item step never fails with `MissingColumn`. -/
lemma transformStep_error_not_missing {store : Store} {t : TState} {k : String}
    {v : PyVal} {e : Err} (h : transformStep store t k v = .error e) :
    e.isMissing = false := by
  unfold transformStep at h
  split at h
  next e1 hr =>
    injection h with h1
    subst h1
    exact readField_error_not_missing hr
  next f hr =>
    split at h
    next e1 hf =>
      injection h with h1
      subst h1
      exact fieldTransform_error_not_missing hf
    next d hf =>
      rw [unpack2_error_shape h]
      rfl

/-- A record-item step never succeeds: the one-entry dict returned by the
field's `transform` cannot be unpacked into two variables
(`models.py:173`). -/
lemma transformStep_never_ok {store : Store} {t : TState} {k : String}
    {v : PyVal} {pr : String × PyVal} (h : transformStep store t k v = .ok pr) :
    False := by
  unfold transformStep at h
  split at h
  next e1 hr => cases h
  next f hr =>
    split at h
    next e1 hf => cases h
    next d hf =>
      obtain ⟨k1, w1, hd⟩ := fieldTransform_singleton hf
      subst hd
      simp [unpack2] at h

/-- The monetary merge step never fails with `MissingColumn`: its raise
sites are the `KeyError` lookups and the float parse. -/
lemma mergeAmount_not_missing (tr : List (String × PyVal)) :
    isMissingColumnErr (mergeAmount tr) = false := by
  unfold mergeAmount
  split
  · rfl
  · split
    · rfl
    · split
      · rfl
      · rfl

/-- The transformer loop never fails with `MissingColumn`: every raise site
it can reach is a different error kind, and source keys absent from the
record are never even visited. -/
lemma transformLoop_not_missing (store : Store) (t : TState) :
    ∀ line acc, isMissingColumnErr (transformLoop store t acc line) = false := by
  intro line
  induction line with
  | nil => intro acc; rfl
  | cons hd tl ih =>
    intro acc
    obtain ⟨k, v⟩ := hd
    unfold transformLoop
    cases hs : transformStep store t k v with
    | error e => exact transformStep_error_not_missing hs
    | ok pr => exact (transformStep_never_ok hs).elim

/-- Processing any record item raises: either the key is rejected as
unexpected, or the field's own failure propagates, or the one-entry dict
returned by the field's `transform` fails to unpack into two variables. -/
lemma transformLoop_cons_error (store : Store) (t : TState)
    (acc : List (String × PyVal)) (k : String) (v : PyVal)
    (rest : List (String × PyVal)) :
    ∃ e, transformLoop store t acc ((k, v) :: rest) = .error e := by
  unfold transformLoop
  cases hs : transformStep store t k v with
  | error e => exact ⟨e, rfl⟩
  | ok pr => exact (transformStep_never_ok hs).elim

/-- A schema lookup result is the value of some schema entry. -/
lemma schemaLookup_mem {t : TState} {k : String} {r : FieldRef}
    (h : schemaLookup t k = some r) : ∃ key, (key, r) ∈ t.schema := by
  unfold schemaLookup at h
  cases hf : t.schema.find? (fun p => pkeyEqStr p.1 k) with
  | none => rw [hf] at h; cases h
  | some p =>
    rw [hf] at h
    injection h with h1
    subst h1
    exact ⟨p.1, List.mem_of_find?_eq_some hf⟩

/-- The field lookup reads the store only at the references recorded in
the transformer's own schema. -/
lemma readField_store_agree {store store1 : Store} {t : TState}
    (hag : ∀ p ∈ t.schema, store.get? p.2 = store1.get? p.2) (k : String) :
    readField store t k = readField store1 t k := by
  unfold readField
  cases hl : schemaLookup t k with
  | none => rfl
  | some r =>
    have hr : store.get? r = store1.get? r := by
      obtain ⟨key, hm⟩ := schemaLookup_mem hl
      exact hag (key, r) hm
    show (match store.get? r with
          | none => Except.error (Err.invalidRef r)
          | some f => Except.ok f) =
        (match store1.get? r with
          | none => Except.error (Err.invalidRef r)
          | some f => Except.ok f)
    rw [hr]

/-- A record-item step is unchanged when the store changes only outside the
references recorded in the transformer's schema. -/
lemma transformStep_store_agree {store store1 : Store} {t : TState}
    (hag : ∀ p ∈ t.schema, store.get? p.2 = store1.get? p.2)
    (k : String) (v : PyVal) :
    transformStep store t k v = transformStep store1 t k v := by
  unfold transformStep
  rw [readField_store_agree hag]

/-- The transformer loop reads the store only at the references recorded in
the transformer's own schema. -/
lemma transformLoop_store_agree {store store1 : Store} {t : TState}
    (hag : ∀ p ∈ t.schema, store.get? p.2 = store1.get? p.2) :
    ∀ line acc, transformLoop store t acc line = transformLoop store1 t acc line := by
  intro line
  induction line with
  | nil => intro acc; rfl
  | cons hd tl ih =>
    intro acc
    obtain ⟨k, v⟩ := hd
    unfold transformLoop
    rw [transformStep_store_agree hag]
    cases hs : transformStep store1 t k v with
    | error e => rfl
    | ok pr => exact (transformStep_never_ok hs).elim

/-- `copyKey` only ever appends to the store. -/
lemma copyKey_ext {store store1 : Store} {k k1 : PyKey}
    (h : copyKey store k = .ok (store1, k1)) : ∃ ext, store1 = store ++ ext := by
  cases k with
  | str s =>
    simp only [copyKey] at h
    injection h with h1
    injection h1 with h2 h3
    exact ⟨[], by simp [h2]⟩
  | pairSF s r =>
    simp only [copyKey] at h
    split at h
    next f hg =>
      injection h with h1
      injection h1 with h2 h3
      exact ⟨[f], h2.symm⟩
    next hg => cases h

/-- `copySchema` only appends fresh cells, and every field reference it
hands to the transformer points at one of those fresh cells (at or beyond
the original store's length). -/
lemma copySchema_ext {sch : List (PyKey × FieldRef)} :
    ∀ {store store1 : Store} {sch1 : List (PyKey × FieldRef)},
      copySchema store sch = .ok (store1, sch1) →
      (∃ ext, store1 = store ++ ext) ∧ ∀ p ∈ sch1, store.length ≤ p.2 := by
  induction sch with
  | nil =>
    intro store store1 sch1 h
    simp only [copySchema] at h
    injection h with h1
    injection h1 with h2 h3
    subst h2 h3
    exact ⟨⟨[], by simp⟩, by intro p hp; cases hp⟩
  | cons hd rest ih =>
    intro store store1 sch1 h
    obtain ⟨k, r⟩ := hd
    simp only [copySchema] at h
    split at h
    next e hk => cases h
    next storeK k1 hk =>
      split at h
      next hg => cases h
      next f hg =>
        split at h
        next e hr => cases h
        next store2 rest1 hr =>
          injection h with h1
          injection h1 with hs1 hs2
          obtain ⟨extK, hextK⟩ := copyKey_ext hk
          obtain ⟨⟨ext2, hext2⟩, hrefs⟩ := ih hr
          subst hextK hs1 hs2
          constructor
          · exact ⟨extK ++ [f] ++ ext2, by simp [hext2]⟩
          · intro p hp
            cases hp with
            | head => simp
            | tail _ hm =>
              have := hrefs p hm
              simp at this
              omega

/- ### Claim theorems -/

/-- C1: for every built-in Schema in the Registry, the dispatcher applied
to that Schema's expected raw-key set returns that same Schema, and for
every set of raw column names that is a strict subset or strict superset
of some Schema's expected keys and equal (as a set) to none of them, the
dispatcher fails with `UnknownFormat`. -/
theorem resolve_left_inverse_and_unknown_format :
    (∀ id : SchemaId, resolve (expectedRawKeys id) = .ok id) ∧
    (∀ cols : List String,
      (∃ id, strictSubB cols (expectedRawKeys id) = true ∨
             strictSubB (expectedRawKeys id) cols = true) →
      (∀ id, setEqB cols (expectedRawKeys id) = false) →
      resolve cols = .error .unknownFormat) := by
  constructor
  · intro id
    cases id <;> decide
  · intro cols _ h
    simp [resolve, h SchemaId.bank1, h SchemaId.bank2, h SchemaId.bank3]

/-- Witness for C1 at the concrete column set
`{timestamp, type, amount, from}`, a strict subset of bank 1's keys that
matches no registered schema. -/
theorem resolve_left_inverse_and_unknown_format_witness :
    strictSubB ["timestamp", "type", "amount", "from"] (expectedRawKeys .bank1) = true ∧
    resolve ["timestamp", "type", "amount", "from"] = .error .unknownFormat :=
  ⟨by decide,
   resolve_left_inverse_and_unknown_format.2 ["timestamp", "type", "amount", "from"]
     ⟨.bank1, Or.inl (by decide)⟩ (by intro id; cases id <;> decide)⟩

/-- C2 (claim refuted at its own input): on the scenario-2 raw record the
monetary-merging transformer raises at the very first column — the date
field's `transform` returns the one-entry dict `{date: 05-01-2020}`, and
unpacking it into two variables fails — instead of returning the claimed
canonical record. -/
theorem scenario2_transform_raises :
    euroCentsTransform bank3Store bank3T scenario2Record = .error (.unpackError 1) ∧
    fieldTransform (.date "date" .str .dby) (.str "05 Jan 2020")
      = .ok [("date", .str "05-01-2020")] := by
  exact ⟨by decide, by decide⟩

/-- C3 counterexample: the claim as stated fails for parseable years below
1000 — `"05-01-0500"` parses against the declared pattern `%d-%m-%Y`
(four-digit `%Y` accepts leading zeros, giving year 500), but `strftime`
renders `%Y` unpadded, so `transform` succeeds with `"05-01-500"`, a
string that does not match the canonical shape `DD-MM-YYYY`. -/
theorem dateField_small_year_not_canonical :
    strptime .dmy "05-01-0500" = some ⟨500, 1, 5⟩ ∧
    fieldTransform (.date "date" .str .dmy) (.str "05-01-0500")
      = .ok [("date", .str "05-01-500")] ∧
    matchesDDMMYYYY "05-01-500" = false := by
  exact ⟨by decide, by decide, by decide⟩

/-- C3 (amended): a date string that parses against the declared source
pattern is transformed into the date re-serialized with two-digit
zero-padded day and month and the year unpadded, which matches the
canonical shape `DD-MM-YYYY` whenever the parsed year is at least 1000;
and every value that fails to parse against the declared pattern (wrong
format, impossible calendar date, or non-string) makes `validate` and
`transform` fail with the invalid-date error. -/
theorem dateField_canonical_or_invalid (name : String) (fmt : Fmt) :
    (∀ s d, strptime fmt s = some d →
      fieldTransform (.date name .str fmt) (.str s)
          = .ok [(name, .str (strftimeCanon d))] ∧
        (1000 ≤ d.year → matchesDDMMYYYY (strftimeCanon d) = true)) ∧
    (∀ v : PyVal, dateParseOf fmt v = none →
      fieldValidate (.date name .str fmt) v = .error (.invalidDate fmt v) ∧
      fieldTransform (.date name .str fmt) v = .error (.invalidDate fmt v)) := by
  constructor
  · intro s d h
    obtain ⟨b1, b2, b3⟩ := validDate_bounds (strptime_isValid h)
    refine ⟨?_, fun hy => matchesDDMMYYYY_strftimeCanon b1 b2 b3 hy⟩
    simp [fieldTransform, fieldValidate, h]
  · intro v h
    cases v with
    | str s =>
      have hs : strptime fmt s = none := h
      exact ⟨by simp [fieldValidate, hs], by simp [fieldTransform, fieldValidate, hs]⟩
    | int n => exact ⟨rfl, rfl⟩
    | float q => exact ⟨rfl, rfl⟩
    | datetimeV d => exact ⟨rfl, rfl⟩

/-- Witness for C3 at the concrete inputs `"Jan 05 2020"` (parses against
`%b %d %Y` and canonicalizes) and `"05-01-2020"` (canonical-looking but
wrong for that pattern, rejected). -/
theorem dateField_canonical_or_invalid_witness :
    strptime .bdy "Jan 05 2020" = some ⟨2020, 1, 5⟩ ∧
    fieldTransform (.date "date" .str .bdy) (.str "Jan 05 2020")
      = .ok [("date", .str (strftimeCanon ⟨2020, 1, 5⟩))] ∧
    matchesDDMMYYYY (strftimeCanon ⟨2020, 1, 5⟩) = true ∧
    dateParseOf .bdy (.str "05-01-2020") = none ∧
    fieldValidate (.date "date" .str .bdy) (.str "05-01-2020")
      = .error (.invalidDate .bdy (.str "05-01-2020")) :=
  ⟨by decide,
   ((dateField_canonical_or_invalid "date" .bdy).1 "Jan 05 2020" ⟨2020, 1, 5⟩ (by decide)).1,
   ((dateField_canonical_or_invalid "date" .bdy).1 "Jan 05 2020" ⟨2020, 1, 5⟩ (by decide)).2
     (by decide),
   by decide,
   ((dateField_canonical_or_invalid "date" .bdy).2 (.str "05-01-2020") (by decide)).1⟩

/-- C4 (claim refuted at its own input): `OneOfField.validate` builds its
error for a value outside the allowed set but never raises it
(`models.py:148`), so the out-of-scope value `"transfer"` is returned
unchanged instead of failing with `InvalidEnumValue`. -/
theorem oneOfField_enum_not_enforced :
    fieldValidate (.oneOf "transaction" .str ["remove", "add"]) (.str "transfer")
      = .ok (.str "transfer") ∧
    (["remove", "add"] : List String).contains "transfer" = false := by
  exact ⟨rfl, by decide⟩

/-- C5 counterexample: under the bank-1 schema, the empty raw record —
from which every required source key is absent — transforms successfully
to the empty record instead of failing with `MissingColumn`. -/
theorem missing_column_not_raised_on_absent_keys :
    pyTransform bank1Store bank1T [] = .ok [] := by
  decide

/-- C5 (amended): the transformer never fails with `MissingColumn` at all,
for any store, schema and record — `transform` iterates over the record's
own columns, so absent source keys are silently skipped; the monetary
variant's failure on the merged sub-keys is a `KeyError`, not
`MissingColumn`. -/
theorem transform_never_missing_column (store : Store) (t : TState)
    (line : List (String × PyVal)) :
    isMissingColumnErr (pyTransform store t line) = false ∧
    isMissingColumnErr (euroCentsTransform store t line) = false := by
  have hbase : isMissingColumnErr (pyTransform store t line) = false :=
    transformLoop_not_missing store t line []
  refine ⟨hbase, ?_⟩
  unfold euroCentsTransform
  cases hp : pyTransform store t line with
  | error e =>
    rw [hp] at hbase
    exact hbase
  | ok tr => exact mergeAmount_not_missing tr

/-- C6 (claim refuted): a successful transform needs not produce the five
canonical columns — the empty record transforms successfully to the empty
(zero-column) record, while a one-column record (whose date field even
succeeds) raises, so no five-column output is ever produced. -/
theorem successful_transform_not_five_columns :
    pyTransform bank1Store bank1T [] = .ok [] ∧
    (([] : List (String × PyVal)).map Prod.fst
        ≠ ["date", "transaction", "amount", "from", "to"]) ∧
    pyTransform bank1Store bank1T [("timestamp", .str "Jan 05 2020")]
      = .error (.unpackError 1) := by
  exact ⟨by decide, by decide, by decide⟩

/-- C7 (claim refuted): transformation is not "complete record or first
failing Field" — on a record whose single field validates and transforms
successfully, the transformer still raises, because of the tuple
unpacking of the field's one-entry result dict. -/
theorem transform_fails_without_field_failure :
    fieldTransform (.typed "to" .int) (.int 5) = .ok [("to", .int 5)] ∧
    pyTransform bank1Store bank1T [("to", .int 5)] = .error (.unpackError 1) := by
  exact ⟨by decide, by decide⟩

/-- C8: transformer construction deep-copies the schema dict
(`models.py:162`), so every field reference the transformer retains points
at a fresh store cell at or beyond the original store's end; mutating the
original field objects (replacing the entire original store region by
arbitrary objects) does not change the result of any later `transform`
call. -/
theorem constructor_deepcopy_frame (store : Store)
    (schema : List (PyKey × FieldRef)) (store1 : Store) (t : TState)
    (hc : constructTransformer store schema = .ok (store1, t))
    (store2 : Store) (hlen : store2.length = store.length)
    (line : List (String × PyVal)) :
    pyTransform (store2 ++ store1.drop store.length) t line
      = pyTransform store1 t line := by
  unfold constructTransformer at hc
  split at hc
  next e hv => cases hc
  next hv =>
    split at hc
    next e hcp => cases hc
    next storeC schemaC hcp =>
      injection hc with h1
      injection h1 with hs1 ht1
      subst hs1
      subst ht1
      obtain ⟨⟨ext, hext⟩, hrefs⟩ := copySchema_ext hcp
      subst hext
      have hdrop : (store ++ ext).drop store.length = ext := List.drop_left store ext
      rw [hdrop]
      refine transformLoop_store_agree ?_ line []
      intro p hp
      have hge : store.length ≤ p.2 := hrefs p hp
      rw [List.get?_append_right (by omega), List.get?_append_right (by omega), hlen]

/-- Witness for C8: a concrete construction over a one-object store
succeeds, and replacing that original object afterwards leaves a
`transform` call's result unchanged. -/
theorem constructor_deepcopy_frame_witness :
    constructTransformer [FieldObj.typed "f" .typeT] [(PyKey.pairSF "g" 0, 0)]
      = .ok ([FieldObj.typed "f" .typeT, FieldObj.typed "f" .typeT,
              FieldObj.typed "f" .typeT], ⟨[(PyKey.pairSF "g" 1, 2)]⟩) ∧
    pyTransform ([FieldObj.typed "x" .str]
          ++ ([FieldObj.typed "f" .typeT, FieldObj.typed "f" .typeT,
               FieldObj.typed "f" .typeT].drop [FieldObj.typed "f" .typeT].length))
        ⟨[(PyKey.pairSF "g" 1, 2)]⟩ [("g", .int 1)]
      = pyTransform [FieldObj.typed "f" .typeT, FieldObj.typed "f" .typeT,
          FieldObj.typed "f" .typeT] ⟨[(PyKey.pairSF "g" 1, 2)]⟩ [("g", .int 1)] :=
  ⟨by decide,
   constructor_deepcopy_frame [FieldObj.typed "f" .typeT] [(PyKey.pairSF "g" 0, 0)]
     _ _ (by decide) [FieldObj.typed "x" .str] (by decide) [("g", .int 1)]⟩

/-- C9: the constructor guard `isinstance(field_type, field_type)`
(`models.py:104`) rejects every type argument that is not an instance of
itself — which includes `str`, `int` and `float`, the only types the
built-in schemas use — so `TypedField`, `DateField` and `OneOfField`
construction raises for those types, and evaluating each built-in schema
literal fails on its first field. -/
theorem typedField_init_guard_rejects_builtin_types :
    (∀ (n : String) (T : PyType), instanceCheckType T T = false →
      typedFieldInit n T = .error (.fieldTypeInitError T) ∧
      (∀ fmt, dateFieldInit n T fmt = .error (.fieldTypeInitError T)) ∧
      (∀ scope, oneOfFieldInit n T scope = .error (.fieldTypeInitError T))) ∧
    mkBank1SchemaDef = .error (.fieldTypeInitError .str) ∧
    mkBank2SchemaDef = .error (.fieldTypeInitError .str) ∧
    mkBank3SchemaDef = .error (.fieldTypeInitError .str) := by
  refine ⟨?_, by decide, by decide, by decide⟩
  intro n T h
  have ht : typedFieldInit n T = .error (.fieldTypeInitError T) := by
    simp [typedFieldInit, h]
  refine ⟨ht, fun fmt => ?_, fun scope => ?_⟩
  · unfold dateFieldInit
    rw [ht]
    rfl
  · unfold oneOfFieldInit
    rw [ht]
    rfl

/-- Witness for C9 at the concrete types `str` and `float` used by the
built-in schemas. -/
theorem typedField_init_guard_witness :
    instanceCheckType PyType.str PyType.str = false ∧
    typedFieldInit "amount" PyType.float = .error (.fieldTypeInitError .float) :=
  ⟨by decide,
   (typedField_init_guard_rejects_builtin_types.1 "amount" PyType.float (by decide)).1⟩

/-- C10: every raw record containing at least one column known to the
transformer's schema makes `transform` raise rather than return — in fact
processing any first item raises, and in particular a schema column's
one-entry field result fails the two-variable tuple unpacking. -/
theorem transform_raises_on_any_schema_column (store : Store) (t : TState)
    (line : List (String × PyVal))
    (h : ∃ p ∈ line, (schemaLookup t p.1).isSome = true) :
    ∃ e, pyTransform store t line = .error e := by
  obtain ⟨p, hp, _⟩ := h
  cases line with
  | nil => cases hp
  | cons hd tl =>
    obtain ⟨k, v⟩ := hd
    exact transformLoop_cons_error store t [] k v tl

/-- Witness for C10 at a concrete record holding the schema column `to`
with a value its field accepts. -/
theorem transform_raises_on_any_schema_column_witness :
    (∃ p ∈ [("to", PyVal.int 5)], (schemaLookup bank1T p.1).isSome = true) ∧
    ∃ e, pyTransform bank1Store bank1T [("to", PyVal.int 5)] = .error e :=
  ⟨by decide,
   transform_raises_on_any_schema_column bank1Store bank1T [("to", PyVal.int 5)]
     (by decide)⟩

end SobersData
